import Mathlib

/-!
Verification development for the School-MCP setup helper
(`setup_helper.py`).  The Python source is shallowly embedded below:

* JSON documents (the Claude Desktop configuration file) are modelled as
  `Json` values; a top-level document is an ordered association list
  `Doc`, mirroring Python's insertion-ordered `dict`.
* `dict` assignment / membership / lookup become `setKey` / `hasKey` /
  `lookupKey` on association lists.
* Filesystem, subprocess and interactive-prompt effects are passed in as
  explicit oracle records (`PyEnv`, `ScriptEnv`, `PkgEnv`, `SetupEnv`);
  a Python exception that the source does not catch is an explicit
  `crash` outcome, a caught one is an `Except.error` / `Option.none`.
-/

set_option autoImplicit false

/-- JSON values, as read from / written to `claude_desktop_config.json`. -/
inductive Json where
  | null
  | bool (b : Bool)
  | num (n : Int)
  | str (s : String)
  | arr (xs : List Json)
  | obj (fields : List (String × Json))

/-- A JSON object document: Python's insertion-ordered `dict` as an
association list (first occurrence of a key is the binding). -/
abbrev Doc := List (String × Json)

/-- Lookup `d[k]` on a Python dict: first binding of the key. -/
def lookupKey {α : Type} : List (String × α) → String → Option α
  | [], _ => none
  | (k1, v) :: rest, k => if k1 = k then some v else lookupKey rest k

/-- Membership test `k in d` on a Python dict. -/
def hasKey {α : Type} (d : List (String × α)) (k : String) : Bool :=
  (lookupKey d k).isSome

/-- Assignment `d[k] = v` on a Python dict: replaces the value in place if
the key is present, otherwise appends the new binding at the end. -/
def setKey {α : Type} : List (String × α) → String → α → List (String × α)
  | [], k, v => [(k, v)]
  | (k1, v1) :: rest, k, v =>
    if k1 = k then (k, v) :: rest else (k1, v1) :: setKey rest k v

theorem lookup_setKey_self {α : Type} (d : List (String × α)) (k : String) (v : α) :
    lookupKey (setKey d k v) k = some v := by
  induction d with
  | nil => simp [setKey, lookupKey]
  | cons p rest ih =>
    obtain ⟨k1, v1⟩ := p
    by_cases h : k1 = k
    · simp [setKey, lookupKey, h]
    · simp [setKey, lookupKey, h, ih]

theorem lookup_setKey_ne {α : Type} (d : List (String × α)) (k k2 : String) (v : α)
    (h : k2 ≠ k) : lookupKey (setKey d k v) k2 = lookupKey d k2 := by
  have hne : ¬ k = k2 := fun hh => h hh.symm
  induction d with
  | nil => simp [setKey, lookupKey, hne]
  | cons p rest ih =>
    obtain ⟨k1, v1⟩ := p
    by_cases h1 : k1 = k
    · subst h1
      simp [setKey, lookupKey, hne]
    · simp [setKey, lookupKey, h1, ih]

theorem setKey_setKey {α : Type} (d : List (String × α)) (k : String) (v w : α) :
    setKey (setKey d k v) k w = setKey d k w := by
  induction d with
  | nil => simp [setKey]
  | cons p rest ih =>
    obtain ⟨k1, v1⟩ := p
    by_cases h : k1 = k
    · simp [setKey, h]
    · simp [setKey, h, ih]

/-! ## The config read step (`setup_claude_config`, lines 155-161)

`json.load` either succeeds with a document, fails with
`json.JSONDecodeError` (invalid JSON), or the file is absent
(`FileNotFoundError`); the latter two are caught and the run starts from
an empty document. -/

/-- Result of attempting to read and JSON-decode the config file. -/
inductive ReadResult where
  | absent
  | invalid
  | valid (d : Doc)

/-- The starting document after the guarded read
(`except (json.JSONDecodeError, FileNotFoundError): config = {}`). -/
def startDoc : ReadResult → Doc
  | .valid d => d
  | _ => []

/-! ## The merge step (`setup_claude_config`, lines 163-165 and 248) -/

/-- Line 164: `if 'mcpServers' not in config: config['mcpServers'] = \x7b\x7d`. -/
def ensureMcpServers (c : Doc) : Doc :=
  if hasKey c "mcpServers" then c else setKey c "mcpServers" (Json.obj [])

/-- Line 248: `config['mcpServers']['school-tools'] = school_mcp_config`.  When the
value under `mcpServers` is not a JSON object this raises `TypeError` in
Python (uncaught), hence `none`. -/
def setServerEntry (c : Doc) (entry : Json) : Option Doc :=
  match lookupKey c "mcpServers" with
  | some (Json.obj servers) =>
      some (setKey c "mcpServers" (Json.obj (setKey servers "school-tools" entry)))
  | _ => none

/-- The in-memory merge of a new server entry into a configuration
document: ensure the `mcpServers` section, then upsert `school-tools`. -/
def mergeEntry (config : Doc) (entry : Json) : Option Doc :=
  setServerEntry (ensureMcpServers config) entry

/-- The value under `mcpServers` (if any) is a JSON object, so the merge
does not raise a `TypeError`. -/
def mcpServersWF (doc : Doc) : Bool :=
  match lookupKey doc "mcpServers" with
  | none => true
  | some (Json.obj _) => true
  | some _ => false

/-! ## String primitives

Executable character-list implementations of the Python string
primitives the source uses (`str.strip`, `str.lower`, `str.startswith`,
`str.split(sep)`, `sep.join`, substring containment), so that every
definition evaluates inside the kernel. -/

/-- The whitespace characters stripped by `str.strip()`. -/
def isSpaceChar (c : Char) : Bool :=
  c = ' ' || c = '\t' || c = '\n' || c = '\r' || c.toNat = 11 || c.toNat = 12

/-- Drop leading whitespace. -/
def dropSpace : List Char → List Char
  | [] => []
  | c :: cs => if isSpaceChar c then dropSpace cs else c :: cs

/-- Python `str.strip()` on the character list. -/
def trimChars (cs : List Char) : List Char :=
  (dropSpace (dropSpace cs.reverse).reverse)

/-- Python `str.strip()`. -/
def strTrim (s : String) : String := String.mk (trimChars s.data)

/-- ASCII `str.lower()` on one character (the prompts compare against
ASCII answers only). -/
def charLower (c : Char) : Char :=
  if 'A' ≤ c && c ≤ 'Z' then Char.ofNat (c.toNat + 32) else c

/-- Python `str.lower()`. -/
def strLower (s : String) : String := String.mk (s.data.map charLower)

/-- The first list is a leading segment of the second. -/
def strLeads : List Char → List Char → Bool
  | [], _ => true
  | _, [] => false
  | a :: as, b :: bs => a = b && strLeads as bs

/-- Python `s.startswith(p)`. -/
def strBegins (p s : String) : Bool := strLeads p.data s.data

/-- Python `p in s`: some suffix of `s` starts with `p`. -/
def containsSeq (p : List Char) : List Char → Bool
  | [] => p.isEmpty
  | c :: cs => strLeads p (c :: cs) || containsSeq p cs

/-- Python `s.split(sep)` for a one-character separator (also the line
decomposition Python's file iteration performs). -/
def splitChar (sep : Char) : List Char → List (List Char)
  | [] => [[]]
  | c :: cs =>
    if c = sep then [] :: splitChar sep cs
    else
      match splitChar sep cs with
      | [] => [[c]]
      | g :: gs => (c :: g) :: gs

/-- Python `sep.join(groups)` for a one-character separator (re-assembles the
remainder of `line.split('=', 1)`). -/
def joinChar (sep : Char) : List (List Char) → List Char
  | [] => []
  | [g] => g
  | g :: gs => g ++ sep :: joinChar sep gs

/-- The lines of a text file as Python's line iteration sees them
(modulo the newline terminators, which `strip` removes anyway). -/
def strLines (s : String) : List String :=
  (splitChar '\n' s.data).map String.mk

/-! ## `load_env_file` (lines 127-141)

One line at a time: strip, skip blank and `#` lines, then
`key, value = line.split('=', 1)`.  A non-blank, non-comment line with no
`=` makes the unpack raise `ValueError`: modelled as `Except.error`
carrying the offending line. -/

/-- The fold over the credential file's lines (`env_vars` starts empty and
duplicate keys follow dict-assignment semantics). -/
def parseEnvLines : List String → List (String × String) →
    Except String (List (String × String))
  | [], acc => .ok acc
  | l :: ls, acc =>
    if strTrim l = "" || strBegins "#" (strTrim l) then parseEnvLines ls acc
    else
      match splitChar '=' (strTrim l).data with
      | [] => .error (strTrim l)
      | [_only] => .error (strTrim l)
      | k :: rest =>
          parseEnvLines ls
            (setKey acc (strTrim (String.mk k)) (strTrim (String.mk (joinChar '=' rest))))

/-- The function `load_env_file` applied to the text content of an existing `.env`
file (Python iterates the file line by line). -/
def load_env_file (text : String) : Except String (List (String × String)) :=
  parseEnvLines (strLines text) []

/-- A line that makes `load_env_file` raise: non-blank after stripping,
not a comment, and containing no `=`. -/
def isBadLine (l : String) : Bool :=
  !(strTrim l = "" || strBegins "#" (strTrim l)) &&
    (splitChar '=' (strTrim l).data).length == 1

/-! ## `find_python_executable` (lines 72-102)

The subprocess probe (`python -c "import school_mcp; print('Found')"`) and
`shutil.which` are oracles: `probeOut p = none` models an exception thrown
by the probe itself (swallowed by the source), `some out` the captured
stdout; success is `"Found" in out`. -/

/-- Oracles for runtime resolution. -/
structure PyEnv where
  sysExecutable : String
  which : String → Option String
  probeOut : String → Option String

/-- Line 82: `"Found" in result.stdout`, substring containment. -/
def containsFound (s : String) : Bool :=
  containsSeq "Found".data s.data

/-- A probe of runtime `p` succeeded: no exception and the sentinel
appears in the captured stdout. -/
def probeOk (e : PyEnv) (p : String) : Bool :=
  match e.probeOut p with
  | some out => containsFound out
  | none => false

/-- The fixed ordered list of alternate runtime names (line 88). -/
def pythonCmds : List String :=
  ["python", "python3", "python3.8", "python3.9", "python3.10", "python3.11"]

/-- The loop over alternate names: resolve via the search path, probe,
return the first success (`continue` on any failure). -/
def findFirstAlt (e : PyEnv) : List String → Option String
  | [] => none
  | c :: cs =>
    match e.which c with
    | some p => if probeOk e p then some p else findFirstAlt e cs
    | none => findFirstAlt e cs

/-- The resolver `find_python_executable`: current runtime first, then the alternates,
falling back to the current runtime. -/
def find_python_executable (e : PyEnv) : String :=
  if probeOk e e.sysExecutable then e.sysExecutable
  else
    match findFirstAlt e pythonCmds with
    | some p => p
    | none => e.sysExecutable

/-! ## Path helpers (POSIX-style model of `os.path`) -/

/-- Python `os.path.join` for one component. -/
def joinPath (a b : String) : String := a ++ "/" ++ b

/-- Python `os.path.dirname`. -/
def dirnameOf (p : String) : String :=
  String.mk (joinChar '/' (splitChar '/' p.data).dropLast)

/-! ## `get_script_path` (lines 104-125) -/

/-- Oracles for script resolution (it re-runs runtime resolution to find
the conventional scripts directory). -/
structure ScriptEnv where
  isWin : Bool
  which : String → Option String
  pyEnv : PyEnv
  pathExists : String → Bool

/-- Line 107: `script_name = "school-mcp"` plus the `.exe` suffix on Windows. -/
def scriptNameOf (e : ScriptEnv) : String :=
  if e.isWin then "school-mcp" ++ ".exe" else "school-mcp"

/-- The conventional `bin`/`Scripts` location beside the resolved
runtime. -/
def conventionalScriptPath (e : ScriptEnv) : String :=
  joinPath
    (joinPath (dirnameOf (find_python_executable e.pyEnv))
      (if e.isWin then "Scripts" else "bin"))
    (scriptNameOf e)

/-- The resolver `get_script_path`: search path first, then the conventional
directory, else `None`. -/
def get_script_path (e : ScriptEnv) : Option String :=
  match e.which (scriptNameOf e) with
  | some p => some p
  | none =>
    if e.pathExists (conventionalScriptPath e) then
      some (conventionalScriptPath e)
    else none

/-! ## `get_package_path` (lines 46-70) -/

/-- Oracles for package resolution: `importPath` is the directory derived
from importing `school_mcp` in-process (`none` = `ImportError`),
`siteDirs` is `site.getsitepackages()`, `walkEntries` the `(root, dirs)`
pairs yielded by `os.walk(current_dir)` in order. -/
structure PkgEnv where
  importPath : Option String
  siteDirs : List String
  pathExists : String → Bool
  cwd : String
  walkEntries : List (String × List String)

/-- Line 67: `'school_mcp' in dirs` for one `(root, dirs)` pair of the walk. -/
def walkHit (rd : String × List String) : Bool := rd.2.contains "school_mcp"

/-- The locator `get_package_path`: import introspection, then the site-packages
scan, then `cwd/src/school_mcp`, then the directory-tree walk. -/
def get_package_path (e : PkgEnv) : Option String :=
  match e.importPath with
  | some p => some p
  | none =>
    match (e.siteDirs.map (fun d => joinPath d "school_mcp")).find? e.pathExists with
    | some p => some p
    | none =>
      if e.pathExists (joinPath (joinPath e.cwd "src") "school_mcp") then
        some (joinPath (joinPath e.cwd "src") "school_mcp")
      else
        match e.walkEntries.find? walkHit with
        | some rd => some (joinPath rd.1 "school_mcp")
        | none => none

/-! ## The server entry (`setup_claude_config`, lines 230-245) -/

/-- The `school_mcp_config` dict: direct-script form when a script path
was found, module-invocation form otherwise; the `env` key is added only
when the parsed credentials dict is non-empty (`if env_vars:`). -/
def buildEntry (script : Option String) (python : String)
    (envVars : List (String × String)) : List (String × Json) :=
  let base : List (String × Json) :=
    match script with
    | some s => [("command", Json.str s)]
    | none =>
        [("command", Json.str python),
         ("args", Json.arr [Json.str "-m", Json.str "school_mcp"])]
  if envVars.isEmpty then base
  else setKey base "env" (Json.obj (envVars.map (fun kv => (kv.1, Json.str kv.2))))

/-! ## The orchestrator `setup_claude_config` (lines 143-262) and `main`
(lines 309-319)

Every external interaction is an oracle field.  `scriptPath`,
`packagePath` and `pythonPath` are the results of `get_script_path`,
`get_package_path` and `find_python_executable` for this run; the
`answer*` fields are the raw strings typed at the three `input()`
prompts; `writeOk` tells whether the final `open(..., 'w')`/`json.dump`
raises. -/
structure SetupEnv where
  configFileFound : Bool
  readResult : ReadResult
  scriptPath : Option String
  packagePath : Option String
  pythonPath : String
  envExists : Bool
  templateExists : Bool
  answerTemplate : String
  envText : String
  answerContinue : String
  answerCreateEnv : String
  writeOk : Bool

/-- Prompt answers `input(...).strip().lower()` treated as yes when empty
(`if not use_template or use_template in ('y', 'yes')`). -/
def answerYesDefault (s : String) : Bool :=
  let t := strLower (strTrim s)
  t = "" || t = "y" || t = "yes"

/-- Prompt answers `input(...).strip().lower()` requiring an explicit yes
(`if continue_anyway not in ('y', 'yes')`). -/
def answerYes (s : String) : Bool :=
  let t := strLower (strTrim s)
  t = "y" || t = "yes"

/-- The fixed required credential names (line 203). -/
def requiredVars : List String :=
  ["CANVAS_ACCESS_TOKEN", "CANVAS_DOMAIN", "GRADESCOPE_EMAIL", "GRADESCOPE_PASSWORD"]

/-- Line 204: `missing_vars = [var for var in required_vars if var not in env_vars]`. -/
def missingVars (envVars : List (String × String)) : List String :=
  requiredVars.filter (fun v => !(hasKey envVars v))

/-- Where `setup_claude_config` stands just before the final write. -/
inductive PreWrite where
  | earlyFalse (manual : Bool)
  | crash
  | ready (d : Doc)

/-- Build the entry and set it into the config
(lines 230-248); a `TypeError` from a non-object `mcpServers` value is an
uncaught crash. -/
def finishEntry (env : SetupEnv) (config : Doc)
    (envVars : List (String × String)) : PreWrite :=
  match setServerEntry config (Json.obj (buildEntry env.scriptPath env.pythonPath envVars)) with
  | some d => .ready d
  | none => .crash

/-- The orchestrator `setup_claude_config` up to (but not including) the final write:
locate the config file, guarded read, ensure `mcpServers`, package check,
`.env` handling with its prompts, then build and set the entry. -/
def setupPhase (env : SetupEnv) : PreWrite :=
  if !env.configFileFound then .earlyFalse true
  else
    match env.packagePath with
    | none => .earlyFalse false
    | some _ =>
      if !env.envExists && env.templateExists && answerYesDefault env.answerTemplate then
        .earlyFalse false
      else if env.envExists then
        match load_env_file env.envText with
        | .error _ => .crash
        | .ok envVars =>
          if (missingVars envVars).isEmpty then
            finishEntry env (ensureMcpServers (startDoc env.readResult)) envVars
          else if answerYes env.answerContinue then
            finishEntry env (ensureMcpServers (startDoc env.readResult)) envVars
          else .earlyFalse false
      else
        if answerYesDefault env.answerCreateEnv then .earlyFalse false
        else finishEntry env (ensureMcpServers (startDoc env.readResult)) []

/-- Observable outcome of one `setup_claude_config` run: the returned
boolean (`none` = an uncaught exception escaped), the document written to
the config file if the write succeeded, and whether the
manual-configuration instructions were printed. -/
structure RunOutcome where
  returned : Option Bool
  configWrite : Option Doc
  manual : Bool

/-- The orchestrator `setup_claude_config`: the phase above followed by the guarded write
(lines 251-262); a write failure is caught, prints the manual
instructions and returns `False`. -/
def setupClaudeConfig (env : SetupEnv) : RunOutcome :=
  match setupPhase env with
  | .earlyFalse m => ⟨some false, none, m⟩
  | .crash => ⟨none, none, false⟩
  | .ready d =>
      if env.writeOk then ⟨some true, some d, false⟩
      else ⟨some false, none, true⟩

/-- The entry point `main`: `sys.exit(0 if success else 1)`; `none` when
`setup_claude_config` itself raised. -/
def mainExitCode (env : SetupEnv) : Option Nat :=
  (setupClaudeConfig env).returned.map (fun b => if b then 0 else 1)

/-- The credentials mapping the run proceeds with: the parse result when
the `.env` file exists, the empty mapping otherwise. -/
def envVarsResolved (env : SetupEnv) : Except String (List (String × String)) :=
  if env.envExists then load_env_file env.envText else .ok []

/-! ## Theorems -/

/-- C1: For every pre-existing configuration document (whose
`mcpServers` value, if present, is a JSON object, so that the merge
completes), merging a new server entry preserves every pre-existing
top-level key other than `mcpServers` unchanged, and preserves every
pre-existing entry inside `mcpServers` other than `school-tools`, which
is overwritten whole (last-writer-wins, no merge of sub-fields). -/
theorem mergeEntry_frame (doc : Doc) (entry : Json) (hwf : mcpServersWF doc = true) :
    ∃ d, mergeEntry doc entry = some d ∧
      (∀ k, k ≠ "mcpServers" → lookupKey d k = lookupKey doc k) ∧
      (∀ servers, lookupKey doc "mcpServers" = some (Json.obj servers) →
        ∃ servers2, lookupKey d "mcpServers" = some (Json.obj servers2) ∧
          (∀ n, n ≠ "school-tools" → lookupKey servers2 n = lookupKey servers n) ∧
          lookupKey servers2 "school-tools" = some entry) := by
  rcases hm : lookupKey doc "mcpServers" with _ | v
  · have hhk : hasKey doc "mcpServers" = false := by simp [hasKey, hm]
    refine ⟨setKey doc "mcpServers" (Json.obj [("school-tools", entry)]), ?_, ?_, ?_⟩
    · simp only [mergeEntry, ensureMcpServers, hhk, Bool.false_eq_true, if_false,
        setServerEntry, lookup_setKey_self]
      simp [setKey, setKey_setKey]
    · intro k hk
      have h2 : lookupKey (setKey doc "mcpServers" (Json.obj [("school-tools", entry)])) k
          = lookupKey doc k := lookup_setKey_ne doc "mcpServers" k _ hk
      exact h2
    · intro servers hs
      cases hs
  · cases v with
    | obj servers =>
      have hhk : hasKey doc "mcpServers" = true := by simp [hasKey, hm]
      refine ⟨setKey doc "mcpServers" (Json.obj (setKey servers "school-tools" entry)),
        ?_, ?_, ?_⟩
      · simp only [mergeEntry, ensureMcpServers, hhk, if_true, setServerEntry, hm]
      · intro k hk
        exact lookup_setKey_ne doc "mcpServers" k _ hk
      · intro servers0 hs
        injection hs with h
        injection h with h2
        subst h2
        refine ⟨setKey servers "school-tools" entry, lookup_setKey_self _ _ _, ?_,
          lookup_setKey_self _ _ _⟩
        intro n hn
        exact lookup_setKey_ne servers "school-tools" n _ hn
    | null => simp [mcpServersWF, hm] at hwf
    | bool b => simp [mcpServersWF, hm] at hwf
    | num n => simp [mcpServersWF, hm] at hwf
    | str s => simp [mcpServersWF, hm] at hwf
    | arr xs => simp [mcpServersWF, hm] at hwf

/-- Witness for C1 at a concrete document: a foreign top-level key, a
foreign server entry and a prior `school-tools` entry. -/
theorem mergeEntry_frame_witness :
    ∃ d,
      mergeEntry
          [("theme", Json.str "dark"),
           ("mcpServers", Json.obj [("other", Json.str "keep"), ("school-tools", Json.str "old")])]
          (Json.str "new") = some d ∧
      (∀ k, k ≠ "mcpServers" →
        lookupKey d k =
          lookupKey
            [("theme", Json.str "dark"),
             ("mcpServers", Json.obj [("other", Json.str "keep"), ("school-tools", Json.str "old")])] k) ∧
      (∀ servers,
        lookupKey
            [("theme", Json.str "dark"),
             ("mcpServers", Json.obj [("other", Json.str "keep"), ("school-tools", Json.str "old")])]
            "mcpServers" = some (Json.obj servers) →
        ∃ servers2, lookupKey d "mcpServers" = some (Json.obj servers2) ∧
          (∀ n, n ≠ "school-tools" → lookupKey servers2 n = lookupKey servers n) ∧
          lookupKey servers2 "school-tools" = some (Json.str "new")) :=
  mergeEntry_frame
    [("theme", Json.str "dark"),
     ("mcpServers", Json.obj [("other", Json.str "keep"), ("school-tools", Json.str "old")])]
    (Json.str "new") (by decide)

/-- C2: The merge is idempotent: merging the same entry twice gives
the same document as merging it once (when the first merge raises, so
does the composite, stated via `Option.bind`). -/
theorem mergeEntry_idem (doc : Doc) (entry : Json) :
    (mergeEntry doc entry).bind (fun d => mergeEntry d entry) = mergeEntry doc entry := by
  rcases hm : lookupKey doc "mcpServers" with _ | v
  · have hhk : hasKey doc "mcpServers" = false := by simp [hasKey, hm]
    have h1 : mergeEntry doc entry =
        some (setKey doc "mcpServers" (Json.obj [("school-tools", entry)])) := by
      simp only [mergeEntry, ensureMcpServers, hhk, Bool.false_eq_true, if_false,
        setServerEntry, lookup_setKey_self]
      simp [setKey, setKey_setKey]
    rw [h1]
    have hl1 : lookupKey (setKey doc "mcpServers" (Json.obj [("school-tools", entry)]))
        "mcpServers" = some (Json.obj [("school-tools", entry)]) := lookup_setKey_self _ _ _
    have hk1 : hasKey (setKey doc "mcpServers" (Json.obj [("school-tools", entry)]))
        "mcpServers" = true := by simp [hasKey, hl1]
    simp only [Option.bind, mergeEntry, ensureMcpServers, hk1, if_true, setServerEntry, hl1]
    simp [setKey, setKey_setKey]
  · cases v with
    | obj servers =>
      have hhk : hasKey doc "mcpServers" = true := by simp [hasKey, hm]
      have h1 : mergeEntry doc entry =
          some (setKey doc "mcpServers" (Json.obj (setKey servers "school-tools" entry))) := by
        simp only [mergeEntry, ensureMcpServers, hhk, if_true, setServerEntry, hm]
      rw [h1]
      have hl1 : lookupKey
          (setKey doc "mcpServers" (Json.obj (setKey servers "school-tools" entry)))
          "mcpServers" = some (Json.obj (setKey servers "school-tools" entry)) :=
        lookup_setKey_self _ _ _
      have hk1 : hasKey
          (setKey doc "mcpServers" (Json.obj (setKey servers "school-tools" entry)))
          "mcpServers" = true := by simp [hasKey, hl1]
      simp only [Option.bind, mergeEntry, ensureMcpServers, hk1, if_true, setServerEntry, hl1]
      simp [setKey_setKey]
    | null => simp [mergeEntry, ensureMcpServers, hasKey, hm, setServerEntry]
    | bool b => simp [mergeEntry, ensureMcpServers, hasKey, hm, setServerEntry]
    | num n => simp [mergeEntry, ensureMcpServers, hasKey, hm, setServerEntry]
    | str s => simp [mergeEntry, ensureMcpServers, hasKey, hm, setServerEntry]
    | arr xs => simp [mergeEntry, ensureMcpServers, hasKey, hm, setServerEntry]

/-- C3: Merging into an empty document (the starting document for an
absent or unparseable config file) yields exactly
`{"mcpServers": {"school-tools": entry}}`. -/
theorem mergeEntry_into_empty (entry : Json) :
    mergeEntry [] entry = some [("mcpServers", Json.obj [("school-tools", entry)])] ∧
    startDoc ReadResult.absent = [] ∧ startDoc ReadResult.invalid = [] :=
  ⟨rfl, rfl, rfl⟩

/-- C4: A config file containing invalid JSON is treated identically
to an absent file: both start the merge from the empty document (the
guarded read is never fatal) and the whole run produces identical
outcomes for the same inputs. -/
theorem read_invalid_eq_absent (env : SetupEnv) :
    setupClaudeConfig { env with readResult := ReadResult.invalid } =
      setupClaudeConfig { env with readResult := ReadResult.absent } ∧
    startDoc ReadResult.invalid = startDoc ReadResult.absent :=
  ⟨rfl, rfl⟩

/-- If some line of the input is non-blank, non-comment and has no `=`,
the parse fold stops with an error (at the first such line). -/
theorem parseEnvLines_error_of_bad (ls : List String) :
    ∀ acc, (∃ l ∈ ls, isBadLine l = true) →
      ∃ e, parseEnvLines ls acc = Except.error e := by
  induction ls with
  | nil =>
    intro acc h
    obtain ⟨l, hl, _⟩ := h
    cases hl
  | cons l0 ls ih =>
    intro acc h
    obtain ⟨l, hl, hbad⟩ := h
    simp only [parseEnvLines]
    by_cases h0 : (strTrim l0 = "" || strBegins "#" (strTrim l0)) = true
    · rw [if_pos h0]
      apply ih
      rcases List.mem_cons.mp hl with rfl | hmem
      · exfalso
        simp only [isBadLine, h0, Bool.not_true, Bool.false_and] at hbad
        cases hbad
      · exact ⟨l, hmem, hbad⟩
    · rw [if_neg h0]
      rcases hsp : splitChar '=' (strTrim l0).data with _ | ⟨k, rest⟩
      · exact ⟨strTrim l0, by simp [hsp]⟩
      · rcases rest with _ | ⟨r2, rest2⟩
        · exact ⟨strTrim l0, by simp [hsp]⟩
        · rcases List.mem_cons.mp hl with rfl | hmem
          · exfalso
            simp [isBadLine, hsp, h0] at hbad
          · obtain ⟨e, he⟩ := ih
              (setKey acc (strTrim (String.mk k))
                (strTrim (String.mk (joinChar '=' (r2 :: rest2)))))
              ⟨l, hmem, hbad⟩
            exact ⟨e, by simp [hsp, he]⟩

/-- C5: Parsing `"A=1\nB=2\n# comment\n\n"` yields exactly
`{A: "1", B: "2"}` (blank and `#` lines ignored, keys and values
trimmed), and any input containing a non-blank, non-comment line with no
`=` makes the parser signal an error (the `ValueError` the unpack at
line 138 raises) rather than return a mapping. -/
theorem load_env_file_spec :
    load_env_file "A=1\nB=2\n# comment\n\n" = Except.ok [("A", "1"), ("B", "2")] ∧
    ∀ text, (∃ l ∈ strLines text, isBadLine l = true) →
      ∃ e, load_env_file text = Except.error e := by
  refine ⟨rfl, ?_⟩
  intro text h
  exact parseEnvLines_error_of_bad (strLines text) [] h

/-- Witness for C5 at a concrete malformed input. -/
theorem load_env_file_spec_witness :
    ∃ e, load_env_file "CANVAS_TOKEN" = Except.error e :=
  load_env_file_spec.2 "CANVAS_TOKEN" ⟨"CANVAS_TOKEN", by decide, by decide⟩

/-- The alternate-runtime loop returns the first search-path-resolved
candidate whose probe succeeds. -/
theorem findFirstAlt_eq (e : PyEnv) (l : List String) :
    findFirstAlt e l = (l.filterMap e.which).find? (fun p => probeOk e p) := by
  induction l with
  | nil => rfl
  | cons c cs ih =>
    rcases hw : e.which c with _ | p
    · simp [findFirstAlt, hw, ih]
    · cases hp : probeOk e p
      · simp [findFirstAlt, hw, hp, ih, List.find?]
      · simp [findFirstAlt, hw, hp, List.find?]

/-- C6: Runtime resolution probes the current runtime first, then
the fixed ordered alternate names resolved via the search path, and
returns the first candidate whose probe output contains the sentinel
`Found`; when no candidate succeeds it returns the current runtime's
path (and it is total — no probe failure is fatal). -/
theorem find_python_executable_spec (e : PyEnv) :
    find_python_executable e =
      (((e.sysExecutable :: pythonCmds.filterMap e.which).find?
        (fun p => probeOk e p)).getD e.sysExecutable) ∧
    ((∀ p ∈ e.sysExecutable :: pythonCmds.filterMap e.which, probeOk e p = false) →
      find_python_executable e = e.sysExecutable) := by
  have hmain : find_python_executable e =
      (((e.sysExecutable :: pythonCmds.filterMap e.which).find?
        (fun p => probeOk e p)).getD e.sysExecutable) := by
    cases hp : probeOk e e.sysExecutable
    · simp only [find_python_executable, hp, Bool.false_eq_true, if_false, findFirstAlt_eq]
      rw [List.find?_cons_of_neg _ (by simp [hp])]
      rcases hfa : (pythonCmds.filterMap e.which).find? (fun p => probeOk e p) with _ | q
      · simp
      · simp
    · simp [find_python_executable, hp, List.find?_cons_of_pos _ hp]
  refine ⟨hmain, ?_⟩
  intro hall
  rw [hmain]
  have hnone : (e.sysExecutable :: pythonCmds.filterMap e.which).find?
      (fun p => probeOk e p) = none := by
    rw [List.find?_eq_none]
    intro x hx
    simp [hall x hx]
  simp [hnone]

/-- Witness for C6: an oracle under which every probe throws, so no
candidate succeeds and the current runtime is returned. -/
theorem find_python_executable_spec_witness :
    find_python_executable ⟨"/cur/python", fun _ => none, fun _ => none⟩ = "/cur/python" :=
  (find_python_executable_spec ⟨"/cur/python", fun _ => none, fun _ => none⟩).2 (by decide)

/-- C7: When the package locator returns absent the run is a
terminal failure with exit code 1 and no config-file write; and the
locator returns absent exactly when all four strategies (in-process
import, site-packages scan, `cwd/src/school_mcp`, working-tree walk)
fail. -/
theorem package_absent_fatal :
    (∀ env : SetupEnv, env.packagePath = none →
      mainExitCode env = some 1 ∧ (setupClaudeConfig env).configWrite = none) ∧
    (∀ e : PkgEnv, get_package_path e = none ↔
      (e.importPath = none ∧
       (∀ d ∈ e.siteDirs, e.pathExists (joinPath d "school_mcp") = false) ∧
       e.pathExists (joinPath (joinPath e.cwd "src") "school_mcp") = false ∧
       (∀ rd ∈ e.walkEntries, walkHit rd = false))) := by
  constructor
  · intro env h
    cases hc : env.configFileFound
    · simp [mainExitCode, setupClaudeConfig, setupPhase, hc]
    · simp [mainExitCode, setupClaudeConfig, setupPhase, hc, h]
  · intro e
    constructor
    · intro h
      rcases hi : e.importPath with _ | p
      swap
      · simp [get_package_path, hi] at h
      · refine ⟨rfl, ?_⟩
        rcases hf : (e.siteDirs.map (fun d => joinPath d "school_mcp")).find? e.pathExists
          with _ | q
        swap
        · simp [get_package_path, hi, hf] at h
        · cases hsrc : e.pathExists (joinPath (joinPath e.cwd "src") "school_mcp")
          swap
          · simp [get_package_path, hi, hf, hsrc] at h
          · rcases hwk : e.walkEntries.find? walkHit with _ | rd
            swap
            · simp [get_package_path, hi, hf, hsrc, hwk] at h
            · refine ⟨?_, rfl, ?_⟩
              · intro d hd
                have hx := List.find?_eq_none.mp hf (joinPath d "school_mcp")
                  (List.mem_map_of_mem _ hd)
                simpa using hx
              · intro rd2 hrd
                have hx := List.find?_eq_none.mp hwk rd2 hrd
                simpa using hx
    · rintro ⟨h1, h2, h3, h4⟩
      have hf : (e.siteDirs.map (fun d => joinPath d "school_mcp")).find? e.pathExists
          = none := by
        rw [List.find?_eq_none]
        intro x hx
        obtain ⟨d, hd, rfl⟩ := List.mem_map.mp hx
        simp [h2 d hd]
      have hwk : e.walkEntries.find? walkHit = none := by
        rw [List.find?_eq_none]
        intro rd hrd
        simp [h4 rd hrd]
      simp [get_package_path, h1, hf, h3, hwk]

/-- Witness for C7 at a concrete run whose package resolution failed. -/
theorem package_absent_fatal_witness :
    mainExitCode ⟨true, ReadResult.absent, none, none, "/py", false, false, "", "", "", "", true⟩
      = some 1 ∧
    (setupClaudeConfig
      ⟨true, ReadResult.absent, none, none, "/py", false, false, "", "", "", "", true⟩).configWrite
      = none :=
  package_absent_fatal.1
    ⟨true, ReadResult.absent, none, none, "/py", false, false, "", "", "", "", true⟩ rfl

/-- C8 counterexample: Not every exception raised during the merge
step is caught: on a config document whose pre-existing `mcpServers`
value is the string `"oops"` (valid JSON), the entry assignment at line
248 raises `TypeError` outside any `try`, and `setup_claude_config`
terminates by an uncaught exception (`returned = none`) instead of a
caught terminal failure. -/
theorem merge_crash_uncaught :
    (setupClaudeConfig
      ⟨true, ReadResult.valid [("mcpServers", Json.str "oops")], some "/s", some "/pkg",
        "/py", false, false, "", "", "", "n", true⟩).returned = none := rfl

/-- C8 amended: Every exception raised during the config-file
*write* step is caught and converted into a terminal failure that prints
the manual-configuration instructions, and a completed merge-and-write is
the sole success terminal state; however an exception while *setting* the
entry (pre-existing non-object `mcpServers` value) is not caught. -/
theorem write_fail_caught :
    (∀ (env : SetupEnv) (d : Doc), setupPhase env = PreWrite.ready d →
      env.writeOk = false →
      setupClaudeConfig env = ⟨some false, none, true⟩) ∧
    (∀ env : SetupEnv, (setupClaudeConfig env).returned = some true ↔
      (∃ d, setupPhase env = PreWrite.ready d ∧ env.writeOk = true)) := by
  constructor
  · intro env d hp hw
    simp [setupClaudeConfig, hp, hw]
  · intro env
    rcases hp : setupPhase env with m | _ | d
    · simp [setupClaudeConfig, hp]
    · simp [setupClaudeConfig, hp]
    · cases hw : env.writeOk
      · simp [setupClaudeConfig, hp, hw]
      · simp [setupClaudeConfig, hp, hw]

/-- Witness for the amended C8: a run that reaches the write with a
failing write converts the exception into `False` + manual
instructions. -/
theorem write_fail_caught_witness :
    setupClaudeConfig
      ⟨true, ReadResult.absent, some "/s", some "/pkg", "/py", false, false,
        "", "", "", "n", false⟩ = ⟨some false, none, true⟩ :=
  write_fail_caught.1
    ⟨true, ReadResult.absent, some "/s", some "/pkg", "/py", false, false,
      "", "", "", "n", false⟩
    [("mcpServers", Json.obj [("school-tools", Json.obj [("command", Json.str "/s")])])]
    rfl rfl

/-- C9: Script resolution looks the platform-appropriate executable
name up on the search path first, then checks the conventional
`bin`/`Scripts` directory beside the resolved runtime, and returns absent
otherwise; when the script is absent the produced entry uses the
module-invocation form (`command` = runtime path,
`args = ["-m", "school_mcp"]`). -/
theorem get_script_path_spec :
    (∀ (e : ScriptEnv) (p : String),
      e.which (scriptNameOf e) = some p → get_script_path e = some p) ∧
    (∀ e : ScriptEnv, e.which (scriptNameOf e) = none →
      e.pathExists (conventionalScriptPath e) = true →
      get_script_path e = some (conventionalScriptPath e)) ∧
    (∀ e : ScriptEnv, e.which (scriptNameOf e) = none →
      e.pathExists (conventionalScriptPath e) = false →
      get_script_path e = none) ∧
    (∀ (python : String) (envVars : List (String × String)),
      lookupKey (buildEntry none python envVars) "command" = some (Json.str python) ∧
      lookupKey (buildEntry none python envVars) "args" =
        some (Json.arr [Json.str "-m", Json.str "school_mcp"])) := by
  refine ⟨?_, ?_, ?_, ?_⟩
  · intro e p h
    simp [get_script_path, h]
  · intro e h hex
    simp [get_script_path, h, hex]
  · intro e h hex
    simp [get_script_path, h, hex]
  · intro python envVars
    rcases envVars with _ | ⟨kv, rest⟩
    · exact ⟨rfl, rfl⟩
    · exact ⟨rfl, rfl⟩

/-- Witness for C9: the search-path lookup succeeds and is returned. -/
theorem get_script_path_spec_witness :
    get_script_path
      ⟨false, fun _ => some "/usr/local/bin/school-mcp",
        ⟨"/py", fun _ => none, fun _ => none⟩, fun _ => false⟩
      = some "/usr/local/bin/school-mcp" :=
  get_script_path_spec.1
    ⟨false, fun _ => some "/usr/local/bin/school-mcp",
      ⟨"/py", fun _ => none, fun _ => none⟩, fun _ => false⟩
    "/usr/local/bin/school-mcp" rfl

/-- A successful entry assignment makes `mcpServers` an object whose
`school-tools` binding is exactly the new entry. -/
theorem setServerEntry_lookup (c : Doc) (entry : Json) (d : Doc)
    (h : setServerEntry c entry = some d) :
    ∃ servers2, lookupKey d "mcpServers" = some (Json.obj servers2) ∧
      lookupKey servers2 "school-tools" = some entry := by
  unfold setServerEntry at h
  rcases hm : lookupKey c "mcpServers" with _ | v
  · simp [hm] at h
  · cases v <;> simp [hm] at h
    case obj servers =>
      rw [← h]
      exact ⟨setKey servers "school-tools" entry, lookup_setKey_self _ _ _,
        lookup_setKey_self _ _ _⟩

/-- The step `finishEntry` reaches `ready d` exactly by a successful entry
assignment. -/
theorem finishEntry_ready (env : SetupEnv) (c : Doc)
    (vars : List (String × String)) (d : Doc)
    (h : finishEntry env c vars = PreWrite.ready d) :
    setServerEntry c (Json.obj (buildEntry env.scriptPath env.pythonPath vars)) = some d := by
  unfold finishEntry at h
  rcases hs : setServerEntry c (Json.obj (buildEntry env.scriptPath env.pythonPath vars))
    with _ | d2
  · simp [hs] at h
  · simp [hs] at h
    exact congrArg some h

/-- Any run that reaches the write step got there with the credentials
mapping `envVarsResolved` and the document produced by setting the built
entry into the starting document. -/
theorem setupPhase_ready_shape (env : SetupEnv) (d : Doc)
    (h : setupPhase env = PreWrite.ready d) :
    ∃ vars, envVarsResolved env = Except.ok vars ∧
      setServerEntry (ensureMcpServers (startDoc env.readResult))
        (Json.obj (buildEntry env.scriptPath env.pythonPath vars)) = some d := by
  unfold setupPhase at h
  cases hcf : env.configFileFound
  · simp [hcf] at h
  · simp only [hcf, Bool.not_true, Bool.false_eq_true, if_false] at h
    rcases hpk : env.packagePath with _ | p
    · simp [hpk] at h
    · simp only [hpk] at h
      by_cases h1 : (!env.envExists && env.templateExists
          && answerYesDefault env.answerTemplate) = true
      · rw [if_pos h1] at h
        exact PreWrite.noConfusion h
      · rw [if_neg h1] at h
        cases hex : env.envExists
        · simp only [hex, Bool.false_eq_true, if_false] at h
          by_cases h2 : answerYesDefault env.answerCreateEnv = true
          · rw [if_pos h2] at h
            exact PreWrite.noConfusion h
          · rw [if_neg h2] at h
            exact ⟨[], by simp [envVarsResolved, hex], finishEntry_ready env _ [] d h⟩
        · simp only [hex, if_true] at h
          rcases hload : load_env_file env.envText with e | vars
          · simp [hload] at h
          · simp only [hload] at h
            by_cases h3 : (missingVars vars).isEmpty = true
            · rw [if_pos h3] at h
              exact ⟨vars, by simp [envVarsResolved, hex, hload],
                finishEntry_ready env _ vars d h⟩
            · rw [if_neg h3] at h
              by_cases h4 : answerYes env.answerContinue = true
              · rw [if_pos h4] at h
                exact ⟨vars, by simp [envVarsResolved, hex, hload],
                  finishEntry_ready env _ vars d h⟩
              · rw [if_neg h4] at h
                exact PreWrite.noConfusion h

/-- C10: The `env` field is present in the built server entry iff
the parsed credentials mapping is non-empty (an entry built from an empty
mapping has no `env` field at all), and every document the run actually
writes holds, under `mcpServers.school-tools`, exactly the entry built
from the resolved credentials mapping. -/
theorem entry_env_iff_nonempty :
    (∀ (script : Option String) (python : String) (envVars : List (String × String)),
      (hasKey (buildEntry script python envVars) "env" = true ↔ envVars ≠ []) ∧
      (envVars = [] → lookupKey (buildEntry script python envVars) "env" = none)) ∧
    (∀ (env : SetupEnv) (d : Doc), (setupClaudeConfig env).configWrite = some d →
      ∃ vars, envVarsResolved env = Except.ok vars ∧
        ∃ servers, lookupKey d "mcpServers" = some (Json.obj servers) ∧
          lookupKey servers "school-tools" =
            some (Json.obj (buildEntry env.scriptPath env.pythonPath vars))) := by
  constructor
  · intro script python envVars
    rcases envVars with _ | ⟨kv, rest⟩
    · constructor
      · rcases script with _ | s <;> simp [buildEntry, hasKey, lookupKey]
      · intro _
        rcases script with _ | s <;> rfl
    · constructor
      · constructor
        · intro _
          simp
        · intro _
          rcases script with _ | s <;>
            simp [buildEntry, hasKey, List.isEmpty, lookup_setKey_self]
      · intro hcontra
        cases hcontra
  · intro env d h
    rcases hp : setupPhase env with m | _ | d0
    · simp [setupClaudeConfig, hp] at h
    · simp [setupClaudeConfig, hp] at h
    · cases hw : env.writeOk
      · simp [setupClaudeConfig, hp, hw] at h
      · simp [setupClaudeConfig, hp, hw] at h
        subst h
        obtain ⟨vars, hv, hs⟩ := setupPhase_ready_shape env d0 hp
        obtain ⟨servers2, hl, hst⟩ := setServerEntry_lookup _ _ _ hs
        exact ⟨vars, hv, servers2, hl, hst⟩

/-- Witness for C10: an entry built from the empty credentials mapping
has no `env` field. -/
theorem entry_env_iff_nonempty_witness :
    lookupKey (buildEntry (some "/s") "/py" []) "env" = none :=
  (entry_env_iff_nonempty.1 (some "/s") "/py" []).2 rfl
